import Mathlib

/-!
Shallow embedding of the core of `src/Desktop/asdfasdf/server2.py`
(driver drowsiness dashboard): the ingestion endpoint `eye_hook`
(`POST /eye`), the statistics aggregator `update_statistics`, and the
reset endpoint `reset_statistics`, together with the two pieces of
global state `latest_eye` and `eye_statistics`.

Modelling decisions, all driven by the Python source:
- JSON scalar values are `JVal` (null, number, string, boolean); numbers
  are rationals, since no claim depends on binary floating point.
- Python dynamic behaviour the code relies on is modelled explicitly:
  `float(x)` is `pyFloatApp` (raising = `none`), `x.lower()` is
  `pyLower` (raising on non-strings = `none`), `x > y` between a JSON
  value and a number is `pyGtNum` (TypeError = `none`), `==`/`!=` is
  `pyEq` (never raises), truthiness is `pyTruthy`.
- `random.uniform` is an arbitrary function parameter `rand`; theorems
  that need it assume only `a ≤ b → a ≤ rand a b ≤ b`.
- Wall-clock timestamps are opaque string/rational parameters.
- An unhandled exception inside the request handler is modelled as the
  `HookResult.serverError` outcome, returning the state as mutated so
  far (Flask turns the exception into a 500 response; the global dicts
  keep whatever mutations already happened).
-/

namespace DriverDashboard

/-- A JSON scalar value as handled by the Python code. -/
inductive JVal where
  | null
  | num (q : ℚ)
  | str (s : String)
  | bool (b : Bool)
deriving DecidableEq, Repr

/-- Python truthiness of a `JVal` (`if x:`). -/
def pyTruthy : JVal → Bool
  | .null => false
  | .num q => q ≠ 0
  | .str s => s ≠ ""
  | .bool b => b

/-- Python `==` between two `JVal`s; `True == 1` holds, cross-type
comparisons are `False`, and no exception is possible. -/
def pyEq : JVal → JVal → Bool
  | .null, .null => true
  | .num a, .num b => a == b
  | .num a, .bool b => a == (if b then 1 else 0)
  | .bool a, .num b => (if a then (1 : ℚ) else 0) == b
  | .str a, .str b => a == b
  | .bool a, .bool b => a == b
  | _, _ => false

/-- Python `float()` applied to a string, restricted to plain decimal
literals (optional sign, digits, optional fractional part). The claims
only need that numeric literals parse and words like "abc" do not. -/
def parseDecCore (cs : List Char) : Option ℚ :=
  let intPart := cs.takeWhile Char.isDigit
  let rest := cs.dropWhile Char.isDigit
  let intVal : ℕ := intPart.foldl (fun a c => a * 10 + (c.toNat - 48)) 0
  match rest with
  | [] => if intPart.isEmpty then none else some (intVal : ℚ)
  | '.' :: fracPart =>
    if fracPart.all Char.isDigit && !(intPart.isEmpty && fracPart.isEmpty) then
      let fracVal : ℕ := fracPart.foldl (fun a c => a * 10 + (c.toNat - 48)) 0
      some ((intVal : ℚ) + (fracVal : ℚ) / (10 ^ fracPart.length))
    else none
  | _ => none

/-- Python `float()` applied to a decimal string, with an optional sign. -/
def parseDec (s : String) : Option ℚ :=
  match s.toList with
  | '-' :: rest => (parseDecCore rest).map (fun q => -q)
  | '+' :: rest => parseDecCore rest
  | cs => parseDecCore cs

/-- Python `float(x)` on a `JVal`: numbers pass through, booleans become
0/1, numeric strings parse, everything else raises (`none`). -/
def pyFloatApp : JVal → Option ℚ
  | .num q => some q
  | .bool b => some (if b then 1 else 0)
  | .str s => parseDec s
  | .null => none

/-- ASCII lower-casing of a string, as Python `str.lower()` acts on the
ASCII statuses this program compares against. -/
def strLower (s : String) : String := ⟨s.data.map Char.toLower⟩

/-- Python `x.lower()`: only defined on strings; anything else raises
AttributeError (`none`). -/
def pyLower : JVal → Option String
  | .str s => some (strLower s)
  | _ => none

/-- Python `x > m` where `m` is a number: numbers and booleans compare,
strings and None raise TypeError (`none`). -/
def pyGtNum : JVal → ℚ → Option Bool
  | .num q, m => some (decide (m < q))
  | .bool b, m => some (decide (m < (if b then (1 : ℚ) else 0)))
  | _, _ => none

/-- Numeric value of a `JVal` that passed `pyGtNum` (number or boolean). -/
def pyNumVal : JVal → ℚ
  | .num q => q
  | .bool b => if b then 1 else 0
  | _ => 0

/-- Python `round(x, 3)` on a rational: the nearest multiple of 1/1000.
Python rounds ties to even while Mathlib's `round` rounds ties up; no
claim distinguishes the two, since both return a nearest multiple. -/
def round3 (q : ℚ) : ℚ := ((round (q * 1000) : ℤ) : ℚ) / 1000

/-- The ingestion payload: the six keys `eye_hook` and
`update_statistics` read from the posted JSON object, each possibly
absent (`data.get`). -/
structure Payload where
  status : Option JVal
  duration : Option JVal
  alert_level : Option JVal
  alert_type : Option JVal
  alert_message : Option JVal
  sensitivity : Option JVal
deriving DecidableEq, Repr

/-- The global dict `latest_eye` (source lines 31-40). -/
structure LatestEye where
  status : String
  duration : ℚ
  alert_level : JVal
  alert_type : JVal
  alert_message : JVal
  sensitivity : JVal
  ear_value : ℚ
  timestamp : String
deriving DecidableEq, Repr

/-- An entry of `eye_statistics["alert_history"]` (source lines 149-156),
built from the raw payload values plus the simulated metric. -/
structure HistoryEntry where
  timestamp : String
  status : JVal
  duration : JVal
  ear_value : ℚ
  alert_level : JVal
  alert_type : JVal
deriving DecidableEq, Repr

/-- The global dict `eye_statistics` (source lines 42-47). -/
structure EyeStatistics where
  total_alerts : ℕ
  current_session_start : ℚ
  max_closure_time : ℚ
  alert_history : List HistoryEntry
deriving DecidableEq, Repr

/-- The whole mutable server state: both global dicts. -/
structure ServerState where
  latest_eye : LatestEye
  eye_statistics : EyeStatistics
deriving DecidableEq, Repr

/-- Initial `latest_eye` (source lines 31-40); the process start
timestamp is a parameter. -/
def initial_latest_eye (ts : String) : LatestEye :=
  { status := "open", duration := 0, alert_level := .null, alert_type := .null,
    alert_message := .null, sensitivity := .num 1, ear_value := 0, timestamp := ts }

/-- Initial server state (source lines 31-47). -/
def initial_state (t0 : ℚ) (ts : String) : ServerState :=
  { latest_eye := initial_latest_eye ts,
    eye_statistics :=
      { total_alerts := 0, current_session_start := t0, max_closure_time := 0,
        alert_history := [] } }

/-- Python `l[-50:]`: the last `n` elements of a list. -/
def lastN (n : ℕ) (l : List α) : List α := l.drop (l.length - n)

/-- The history entry appended by `update_statistics` (source lines
149-156): raw payload values, `data.get('duration', 0)` defaulting to
the integer 0, plus the simulated metric and the wall-clock time. -/
def mkHistoryEntry (data : Payload) (ear_value : ℚ) (now : String) : HistoryEntry :=
  { timestamp := now
    status := data.status.getD .null
    duration := data.duration.getD (.num 0)
    ear_value := ear_value
    alert_level := data.alert_level.getD .null
    alert_type := data.alert_type.getD .null }

/-- `update_statistics(data, ear_value)` (source lines 141-159). It
reads the global `latest_eye` — which `eye_hook` has already overwritten
before the call (source line 116 precedes line 128) — so it is passed the
state holding the new snapshot. The comparison
`data.get('duration', 0) > eye_statistics["max_closure_time"]` on line
146 can raise TypeError, modelled as `Except.error`. -/
def update_statistics (data : Payload) (ear_value : ℚ) (st : ServerState)
    (now : String) : Except Unit EyeStatistics :=
  let stats0 := st.eye_statistics
  let stats1 :=
    if pyTruthy (data.alert_level.getD .null) &&
        !(pyEq (data.alert_level.getD .null) st.latest_eye.alert_level) then
      { stats0 with total_alerts := stats0.total_alerts + 1 }
    else stats0
  let appendEntry (s : EyeStatistics) : EyeStatistics :=
    { s with alert_history := lastN 50 (s.alert_history ++ [mkHistoryEntry data ear_value now]) }
  if pyEq (data.status.getD .null) (.str "closed") then
    match pyGtNum (data.duration.getD (.num 0)) stats1.max_closure_time with
    | none => .error ()
    | some b =>
      let stats2 :=
        if b then { stats1 with max_closure_time := pyNumVal (data.duration.getD (.num 0)) }
        else stats1
      .ok (appendEntry stats2)
  else
    .ok (appendEntry stats1)

/-- The duration coercion of `eye_hook` (source lines 96-100):
`float(data.get("duration", 0.0))` with every `ValueError`/`TypeError`
falling back to `0.0`. -/
def coerceDuration (d : Option JVal) : ℚ :=
  match d with
  | none => 0
  | some v => (pyFloatApp v).getD 0

/-- Outcome of `POST /eye`: a 400 rejection, a 200 acknowledgment, or an
unhandled exception (Flask 500). -/
inductive HookResult where
  | badRequest (msg : String)
  | ok
  | serverError
deriving DecidableEq, Repr

/-- The EAR simulation (source lines 102-113) applied to the already
lower-cased status, with `random.uniform` passed in as `rand`. -/
def simulate_ear (status : String) (rand : ℚ → ℚ → ℚ) : ℚ :=
  if status = "closed" then round3 (rand (10/100) (24/100))
  else if status = "open" then round3 (rand (250/1000) (350/1000))
  else 0

/-- `eye_hook()` (source lines 74-135), the `POST /eye` handler.
`data?` is `none` when `request.get_json(force=True)` raises (invalid
JSON); an empty JSON object is a `Payload` with every field `none`, so
the source guard `not data or 'status' not in data` reduces to the
status-field check. Steps, in source order: validate, coerce duration
(line 97-100, exceptions fall back to 0.0), lower-case the status (line
103, raising on a non-string), simulate the EAR, overwrite `latest_eye`
(line 116), then run `update_statistics` (line 128) against the
already-updated snapshot. -/
def eye_hook (st : ServerState) (data? : Option Payload) (rand : ℚ → ℚ → ℚ)
    (now : String) : ServerState × HookResult :=
  match data? with
  | none => (st, .badRequest "Invalid JSON")
  | some data =>
    match data.status with
    | none => (st, .badRequest "Missing status in data")
    | some rawStatus =>
      let duration := coerceDuration data.duration
      match pyLower rawStatus with
      | none => (st, .serverError)
      | some status =>
        let ear_value := simulate_ear status rand
        let newEye : LatestEye :=
          { status := status, duration := duration,
            alert_level := data.alert_level.getD .null,
            alert_type := data.alert_type.getD .null,
            alert_message := data.alert_message.getD .null,
            sensitivity := data.sensitivity.getD (.num 1),
            ear_value := ear_value, timestamp := now }
        let st1 : ServerState := { st with latest_eye := newEye }
        match update_statistics data ear_value st1 now with
        | .error _ => (st1, .serverError)
        | .ok stats => ({ st1 with eye_statistics := stats }, .ok)

/-- `reset_statistics()` (source lines 169-178): rebinds the global
`eye_statistics` to a fresh dict; `latest_eye` is not touched. -/
def reset_statistics (st : ServerState) (tnow : ℚ) : ServerState :=
  { st with eye_statistics :=
      { total_alerts := 0, current_session_start := tnow, max_closure_time := 0,
        alert_history := [] } }

/-- A sequence of `POST /eye` requests folded over the state. -/
def runIngests (st : ServerState) (ps : List (Option Payload)) (rand : ℚ → ℚ → ℚ)
    (now : String) : ServerState :=
  ps.foldl (fun s p => (eye_hook s p rand now).1) st

/-- A deterministic stand-in for `random.uniform` used in concrete runs:
always returns the lower bound. -/
def constRand : ℚ → ℚ → ℚ := fun a _ => a

/-- The payload with every field absent (an empty JSON object). -/
def emptyPayload : Payload :=
  { status := none, duration := none, alert_level := none, alert_type := none,
    alert_message := none, sensitivity := none }

/-- Payload used in concrete multi-ingest runs: status "open" and the
index as numeric duration, so distinct ingests yield distinct entries. -/
def simplePayload (i : ℕ) : Payload :=
  { emptyPayload with status := some (.str "open"), duration := some (.num i) }

/-- Concrete payload raising an alert: status "open", alert level
"danger". -/
def alertPayload : Payload :=
  { emptyPayload with
    status := some (.str "open")
    alert_level := some (.str "danger") }

/-- Concrete payload with status "closed" and a non-numeric duration. -/
def closedBadDurationPayload : Payload :=
  { emptyPayload with
    status := some (.str "closed")
    duration := some (.str "abc") }

/-- Concrete payload with status "open" and a non-numeric duration. -/
def openBadDurationPayload : Payload :=
  { emptyPayload with
    status := some (.str "open")
    duration := some (.str "abc") }

/-- Concrete payload with a negative numeric duration. -/
def negDurationPayload : Payload :=
  { emptyPayload with
    status := some (.str "open")
    duration := some (.num (-5)) }

/-- Concrete payload with upper-case status "CLOSED" and duration 5. -/
def upperClosedPayload : Payload :=
  { emptyPayload with
    status := some (.str "CLOSED")
    duration := some (.num 5) }

/-- Concrete payload with status "closed" (already lower-case) and
duration 5. -/
def lowerClosedPayload : Payload :=
  { emptyPayload with
    status := some (.str "closed")
    duration := some (.num 5) }

/-- Concrete payload whose raw values differ from the processed ones:
status "CLOSED" (lower-cased to "closed" in the snapshot) and duration
the string "5" (coerced to the float 5.0 in the snapshot). -/
def rawMixPayload : Payload :=
  { emptyPayload with
    status := some (.str "CLOSED")
    duration := some (.str "5") }

/-- The state after 51 successive ingests of `simplePayload 1` ..
`simplePayload 51` starting from the fresh server state. -/
def after51 : ServerState :=
  runIngests (initial_state 0 "t0")
    ((List.range 51).map (fun i => some (simplePayload (i + 1)))) constRand "t"

/-- The history entries produced by the first `k` simple ingests. -/
def simpleEntries (k : ℕ) : List HistoryEntry :=
  (List.range k).map (fun i =>
    mkHistoryEntry (simplePayload (i + 1)) (simulate_ear "open" constRand) "t")

section Lemmas

/-- Python `==` is reflexive on JSON scalars. -/
lemma pyEq_refl (v : JVal) : pyEq v v = true := by
  cases v <;> simp [pyEq]

/-- Rounding a rational lying between two integers yields an integer in
the same range. -/
lemma round_cast_mem (m n : ℤ) (x : ℚ) (h1 : (m : ℚ) ≤ x) (h2 : x ≤ (n : ℚ)) :
    (m : ℚ) ≤ ((round x : ℤ) : ℚ) ∧ ((round x : ℤ) : ℚ) ≤ (n : ℚ) := by
  have habs := abs_le.mp (abs_sub_round x)
  constructor
  · have h3 : ((m - 1 : ℤ) : ℚ) < ((round x : ℤ) : ℚ) := by push_cast; linarith [habs.2]
    have h4 : (m - 1 : ℤ) < round x := by exact_mod_cast h3
    exact_mod_cast Int.le_of_lt_add_one (by omega)
  · have h3 : ((round x : ℤ) : ℚ) < ((n + 1 : ℤ) : ℚ) := by push_cast; linarith [habs.1]
    have h4 : round x < (n + 1 : ℤ) := by exact_mod_cast h3
    exact_mod_cast Int.le_of_lt_add_one (by omega)

/-- `round3` maps a value between two multiples of 1/1000 to a value in
the same range. -/
lemma round3_mem (m n : ℤ) (x : ℚ) (h1 : (m : ℚ) / 1000 ≤ x) (h2 : x ≤ (n : ℚ) / 1000) :
    (m : ℚ) / 1000 ≤ round3 x ∧ round3 x ≤ (n : ℚ) / 1000 := by
  have h1a : (m : ℚ) ≤ x * 1000 := by linarith
  have h2a : x * 1000 ≤ (n : ℚ) := by linarith
  obtain ⟨a, b⟩ := round_cast_mem m n (x * 1000) h1a h2a
  unfold round3
  constructor <;> linarith

/-- A successful Python `>` comparison that returned `True` really is a
strict numeric inequality. -/
lemma pyGtNum_some_true {v : JVal} {m : ℚ} (h : pyGtNum v m = some true) :
    m < pyNumVal v := by
  cases v <;> simp [pyGtNum, pyNumVal] at h ⊢ <;> exact h

/-- Everything a successful `update_statistics` call guarantees, given
that the snapshot it reads already holds the payload alert level (which
is how `eye_hook` always calls it, source lines 116-128): the alert
counter is unchanged, the session start is unchanged, the peak closure
time does not decrease, and the history is the old one plus the new
entry, truncated to the last 50. -/
lemma us_ok_spec {data : Payload} {ear : ℚ} {st : ServerState} {now : String}
    {s : EyeStatistics}
    (halv : st.latest_eye.alert_level = data.alert_level.getD .null)
    (h : update_statistics data ear st now = .ok s) :
    s.total_alerts = st.eye_statistics.total_alerts ∧
    s.current_session_start = st.eye_statistics.current_session_start ∧
    st.eye_statistics.max_closure_time ≤ s.max_closure_time ∧
    s.alert_history =
      lastN 50 (st.eye_statistics.alert_history ++ [mkHistoryEntry data ear now]) := by
  unfold update_statistics at h
  rw [halv, pyEq_refl] at h
  simp only [Bool.not_true, Bool.and_false, Bool.false_eq_true, if_false] at h
  split at h
  · split at h
    next => exact absurd h (by simp)
    next b hb =>
      rw [Except.ok.injEq] at h
      subst h
      rcases b with _ | _
      · exact ⟨rfl, rfl, le_refl _, rfl⟩
      · exact ⟨rfl, rfl, le_of_lt (pyGtNum_some_true hb), rfl⟩
  · rw [Except.ok.injEq] at h
    subst h
    exact ⟨rfl, rfl, le_refl _, rfl⟩

/-- Case analysis on an arbitrary `POST /eye` request: either the
statistics dict is untouched (rejection or mid-handler exception), or
`update_statistics` succeeded against the already-overwritten snapshot. -/
lemma eye_hook_stats_cases (st : ServerState) (data? : Option Payload)
    (rand : ℚ → ℚ → ℚ) (now : String) :
    (eye_hook st data? rand now).1.eye_statistics = st.eye_statistics ∨
    ∃ (data : Payload) (ear : ℚ) (stMid : ServerState) (s : EyeStatistics),
      data? = some data ∧
      stMid.eye_statistics = st.eye_statistics ∧
      stMid.latest_eye.alert_level = data.alert_level.getD .null ∧
      update_statistics data ear stMid now = .ok s ∧
      (eye_hook st data? rand now).1.eye_statistics = s := by
  rcases data? with _ | data
  · exact .inl rfl
  rcases hst : data.status with _ | rawStatus
  · exact .inl (by simp [eye_hook, hst])
  rcases hlow : pyLower rawStatus with _ | status
  · exact .inl (by simp [eye_hook, hst, hlow])
  rcases hup : update_statistics data (simulate_ear status rand)
      { st with latest_eye :=
        { status := status, duration := coerceDuration data.duration,
          alert_level := data.alert_level.getD .null,
          alert_type := data.alert_type.getD .null,
          alert_message := data.alert_message.getD .null,
          sensitivity := data.sensitivity.getD (.num 1),
          ear_value := simulate_ear status rand, timestamp := now } } now
    with _ | s
  · exact .inl (by simp [eye_hook, hst, hlow, hup])
  · refine .inr ⟨data, simulate_ear status rand,
      { st with latest_eye :=
        { status := status, duration := coerceDuration data.duration,
          alert_level := data.alert_level.getD .null,
          alert_type := data.alert_type.getD .null,
          alert_message := data.alert_message.getD .null,
          sensitivity := data.sensitivity.getD (.num 1),
          ear_value := simulate_ear status rand, timestamp := now } },
      s, rfl, rfl, rfl, hup, ?_⟩
    simp [eye_hook, hst, hlow, hup]

/-- Everything a successful (HTTP 200) `POST /eye` request guarantees:
the snapshot is overwritten with the lower-cased status, the coerced
duration, the raw optional alert fields and the simulated metric, and
the history is the old one plus the entry built from the raw payload,
truncated to the last 50, with the other statistics fields as in
`us_ok_spec`. -/
lemma eye_hook_ok_spec (st : ServerState) (data : Payload) (rand : ℚ → ℚ → ℚ)
    (now : String) (h : (eye_hook st (some data) rand now).2 = .ok) :
    ∃ rawStatus status,
      data.status = some rawStatus ∧ pyLower rawStatus = some status ∧
      (eye_hook st (some data) rand now).1.latest_eye =
        { status := status, duration := coerceDuration data.duration,
          alert_level := data.alert_level.getD .null,
          alert_type := data.alert_type.getD .null,
          alert_message := data.alert_message.getD .null,
          sensitivity := data.sensitivity.getD (.num 1),
          ear_value := simulate_ear status rand, timestamp := now } ∧
      (eye_hook st (some data) rand now).1.eye_statistics.alert_history =
        lastN 50 (st.eye_statistics.alert_history ++
          [mkHistoryEntry data (simulate_ear status rand) now]) := by
  rcases hst : data.status with _ | rawStatus
  · simp [eye_hook, hst] at h
  rcases hlow : pyLower rawStatus with _ | status
  · simp [eye_hook, hst, hlow] at h
  rcases hup : update_statistics data (simulate_ear status rand)
      { st with latest_eye :=
        { status := status, duration := coerceDuration data.duration,
          alert_level := data.alert_level.getD .null,
          alert_type := data.alert_type.getD .null,
          alert_message := data.alert_message.getD .null,
          sensitivity := data.sensitivity.getD (.num 1),
          ear_value := simulate_ear status rand, timestamp := now } } now
    with _ | s
  · simp [eye_hook, hst, hlow, hup] at h
  · refine ⟨rawStatus, status, rfl, hlow, ?_, ?_⟩
    · simp [eye_hook, hst, hlow, hup]
    · have := (us_ok_spec rfl hup).2.2.2
      simp only [eye_hook, hst, hlow, hup]
      simpa using this

/-- Truncation to the last `n` elements never exceeds length `n`. -/
lemma lastN_length_le (n : ℕ) (l : List α) : (lastN n l).length ≤ n := by
  simp only [lastN, List.length_drop]
  omega

/-- Truncating after appending keeps the appended element last (for a
positive cap). -/
lemma lastN_concat_getLast? (n : ℕ) (hn : 0 < n) (l : List α) (e : α) :
    (lastN n (l ++ [e])).getLast? = some e := by
  unfold lastN
  have hk : (l ++ [e]).length - n ≤ l.length := by
    rw [List.length_append]
    simp only [List.length_cons, List.length_nil]
    omega
  rw [List.drop_append_of_le_length hk]
  exact List.getLast?_concat _

/-- Bounds of the simulated metric in the "closed" branch, for any
random source respecting the bounds of `random.uniform`. -/
lemma simulate_ear_closed {rand : ℚ → ℚ → ℚ}
    (hrand : ∀ a b : ℚ, a ≤ b → a ≤ rand a b ∧ rand a b ≤ b) :
    10 / 100 ≤ simulate_ear "closed" rand ∧ simulate_ear "closed" rand ≤ 24 / 100 := by
  have h := hrand (10 / 100) (24 / 100) (by norm_num)
  have hm := round3_mem 100 240 (rand (10 / 100) (24 / 100))
    (by push_cast; linarith [h.1]) (by push_cast; linarith [h.2])
  have e : simulate_ear "closed" rand = round3 (rand (10 / 100) (24 / 100)) := by
    simp [simulate_ear]
  rw [e]
  constructor
  · have := hm.1; push_cast at this; linarith
  · have := hm.2; push_cast at this; linarith

/-- Bounds of the simulated metric in the "open" branch. -/
lemma simulate_ear_open {rand : ℚ → ℚ → ℚ}
    (hrand : ∀ a b : ℚ, a ≤ b → a ≤ rand a b ∧ rand a b ≤ b) :
    25 / 100 ≤ simulate_ear "open" rand ∧ simulate_ear "open" rand ≤ 35 / 100 := by
  have h := hrand (250 / 1000) (350 / 1000) (by norm_num)
  have hm := round3_mem 250 350 (rand (250 / 1000) (350 / 1000))
    (by push_cast; linarith [h.1]) (by push_cast; linarith [h.2])
  have e : simulate_ear "open" rand = round3 (rand (250 / 1000) (350 / 1000)) := by
    simp [simulate_ear]
  rw [e]
  constructor
  · have := hm.1; push_cast at this; linarith
  · have := hm.2; push_cast at this; linarith

/-- Whatever the outcome of `update_statistics`, a request whose status
field holds the string `s` leaves the snapshot metric at
`simulate_ear s.toLower rand`. -/
lemma eye_hook_ear_value (st : ServerState) (data : Payload) (rand : ℚ → ℚ → ℚ)
    (now : String) (s : String) (hs : data.status = some (.str s)) :
    (eye_hook st (some data) rand now).1.latest_eye.ear_value =
      simulate_ear (strLower s) rand := by
  simp only [eye_hook, hs, pyLower]
  split <;> rfl

/-- A payload with raw status exactly "closed" and a numeric duration
strictly above the current peak makes `update_statistics` succeed with
that duration as the new peak. -/
lemma us_closed_num (data : Payload) (ear : ℚ) (st : ServerState) (now : String)
    (q : ℚ) (hstat : data.status = some (.str "closed"))
    (hdur : data.duration = some (.num q))
    (hgt : st.eye_statistics.max_closure_time < q) :
    ∃ s, update_statistics data ear st now = .ok s ∧ s.max_closure_time = q := by
  unfold update_statistics
  simp only [hstat, hdur, Option.getD_some]
  have hEq : pyEq (.str "closed") (.str "closed") = true := by decide
  rw [hEq]
  cases hc : (pyTruthy (data.alert_level.getD .null) &&
      !pyEq (data.alert_level.getD .null) st.latest_eye.alert_level) <;>
    simp only [Bool.false_eq_true, if_false, if_true, pyGtNum] <;>
    rw [if_pos (by exact decide_eq_true hgt)] <;>
    exact ⟨_, rfl, rfl⟩

/-- Truncating to the last `n`, appending, and truncating again is the
same as truncating the fully appended list. -/
lemma lastN_lastN_append (n : ℕ) (a b : List α) :
    lastN n (lastN n a ++ b) = lastN n (a ++ b) := by
  unfold lastN
  rw [List.drop_append_eq_append_drop, List.drop_append_eq_append_drop,
    List.drop_drop]
  simp only [List.length_append, List.length_drop]
  congr 1
  · congr 1
    omega
  · congr 1
    omega

/-- Unfolding one request off the back of a request sequence. -/
lemma runIngests_concat (st : ServerState) (ps : List (Option Payload))
    (p : Option Payload) (rand : ℚ → ℚ → ℚ) (now : String) :
    runIngests st (ps ++ [p]) rand now =
      (eye_hook (runIngests st ps rand now) p rand now).1 := by
  unfold runIngests
  rw [List.foldl_append]
  rfl

/-- One simple ingest appends its entry and truncates, from any state. -/
lemma eye_hook_simple_history (st : ServerState) (i : ℕ) :
    (eye_hook st (some (simplePayload i)) constRand
        "t").1.eye_statistics.alert_history =
      lastN 50 (st.eye_statistics.alert_history ++
        [mkHistoryEntry (simplePayload i) (simulate_ear "open" constRand) "t"]) := by
  have hok : (eye_hook st (some (simplePayload i)) constRand "t").2 = .ok := rfl
  obtain ⟨raw, status, hst, hlow, hsnap, hhist⟩ :=
    eye_hook_ok_spec st (simplePayload i) constRand "t" hok
  have hraw : raw = .str "open" := by
    have h1 : some (JVal.str "open") = some raw := hst
    injection h1 with h1
    exact h1.symm
  subst hraw
  have hstat : status = "open" := by
    have h2 : some (strLower "open") = some status := hlow
    injection h2 with h2
    rw [← h2]
    decide
  subst hstat
  exact hhist

/-- The alert history after `k` simple ingests from the fresh state is
the truncation of all `k` generated entries. -/
lemma runSimple_history (k : ℕ) :
    (runIngests (initial_state 0 "t0")
        ((List.range k).map (fun i => some (simplePayload (i + 1)))) constRand
        "t").eye_statistics.alert_history =
      lastN 50 (simpleEntries k) := by
  induction k with
  | zero => rfl
  | succ k ih =>
    rw [List.range_succ, List.map_append]
    simp only [List.map_cons, List.map_nil]
    rw [runIngests_concat, eye_hook_simple_history, ih, lastN_lastN_append]
    congr 1
    unfold simpleEntries
    rw [List.range_succ, List.map_append]
    simp only [List.map_cons, List.map_nil]

/-- The concrete history after the 51 simple ingests: the entries of
ingests 2..51, oldest first. -/
lemma after51_history :
    after51.eye_statistics.alert_history =
      (List.range 50).map (fun j =>
        mkHistoryEntry (simplePayload (j + 2)) (simulate_ear "open" constRand)
          "t") := by
  have h51 := runSimple_history 51
  unfold after51
  rw [h51]
  unfold simpleEntries lastN
  rw [List.length_map, List.length_range]
  have h1 : 51 - 50 = 1 := by omega
  rw [h1, List.range_succ_eq_map]
  simp only [List.map_cons, List.drop_succ_cons, List.drop_zero, List.map_map]
  rfl

end Lemmas

section Claims

/-- C1: the claim states that `total_alerts` increases by exactly 1 per
ingest whose alert level is non-null and differs from the snapshot held
just before the ingest. In the code, `eye_hook` overwrites `latest_eye`
(line 116) before calling `update_statistics` (line 128), so the
comparison on line 143 always sees the freshly written value and is
never true: `total_alerts` is invariant under every `POST /eye` request,
and in particular stays 0 when a "danger" alert is ingested into the
fresh state, where the claim requires it to become 1. -/
theorem c1_total_alerts_never_changes :
    (∀ (st : ServerState) (data? : Option Payload) (rand : ℚ → ℚ → ℚ) (now : String),
      (eye_hook st data? rand now).1.eye_statistics.total_alerts =
        st.eye_statistics.total_alerts) ∧
    (eye_hook (initial_state 0 "t0") (some alertPayload) constRand
        "t").1.eye_statistics.total_alerts = 0 := by
  have main : ∀ (st : ServerState) (data? : Option Payload) (rand : ℚ → ℚ → ℚ)
      (now : String),
      (eye_hook st data? rand now).1.eye_statistics.total_alerts =
        st.eye_statistics.total_alerts := by
    intro st data? rand now
    rcases eye_hook_stats_cases st data? rand now with h |
      ⟨data, ear, stMid, s, _, hmid, halv, hup, hres⟩
    · rw [h]
    · rw [hres, (us_ok_spec halv hup).1, hmid]
  exact ⟨main, (main _ _ _ _).trans rfl⟩

/-- C2: the claim states that a present-but-malformed duration never
makes the request fail, for every payload including status "closed". In
the code, `update_statistics` compares the RAW duration against
`max_closure_time` (line 146) whenever the raw status is exactly
"closed"; a non-numeric duration then raises TypeError and the request
fails with an unhandled exception — after the snapshot was already
overwritten. -/
theorem c2_closed_malformed_duration_fails (st : ServerState)
    (rand : ℚ → ℚ → ℚ) (now : String) :
    (eye_hook st (some closedBadDurationPayload) rand now).2 = .serverError := by
  rfl

/-- C5: a request whose body is not parseable as JSON, or whose payload
lacks the `status` field, is rejected with a descriptive error and the
whole server state (snapshot and statistics) is returned unchanged. -/
theorem c5_rejection_is_atomic (st : ServerState) (rand : ℚ → ℚ → ℚ)
    (now : String) :
    eye_hook st none rand now = (st, .badRequest "Invalid JSON") ∧
    ∀ data : Payload, data.status = none →
      eye_hook st (some data) rand now =
        (st, .badRequest "Missing status in data") := by
  refine ⟨rfl, fun data h => ?_⟩
  simp [eye_hook, h]

/-- Witness for C5 at a concrete state and the empty payload. -/
theorem c5_rejection_is_atomic_witness :
    eye_hook (initial_state 0 "t0") (some emptyPayload) constRand "t" =
      (initial_state 0 "t0", .badRequest "Missing status in data") :=
  (c5_rejection_is_atomic (initial_state 0 "t0") constRand "t").2 emptyPayload rfl

/-- C8: `reset_statistics` replaces the statistics dict with zeroed
counters, an empty history and the current time as session start, and
leaves `latest_eye` untouched. -/
theorem c8_reset_zeroes_stats_keeps_snapshot (st : ServerState) (tnow : ℚ) :
    reset_statistics st tnow =
      { latest_eye := st.latest_eye,
        eye_statistics :=
          { total_alerts := 0, current_session_start := tnow,
            max_closure_time := 0, alert_history := [] } } := rfl

/-- C9: `max_closure_time` never decreases across a `POST /eye` request
(whatever its outcome), hence not across any sequence of requests, and
only `reset_statistics` lowers it, to 0. -/
theorem c9_max_closure_time_monotone :
    (∀ (st : ServerState) (data? : Option Payload) (rand : ℚ → ℚ → ℚ)
        (now : String),
      st.eye_statistics.max_closure_time ≤
        (eye_hook st data? rand now).1.eye_statistics.max_closure_time) ∧
    (∀ (st : ServerState) (ps : List (Option Payload)) (rand : ℚ → ℚ → ℚ)
        (now : String),
      st.eye_statistics.max_closure_time ≤
        (runIngests st ps rand now).eye_statistics.max_closure_time) ∧
    (∀ (st : ServerState) (tnow : ℚ),
      (reset_statistics st tnow).eye_statistics.max_closure_time = 0) := by
  have step : ∀ (st : ServerState) (data? : Option Payload) (rand : ℚ → ℚ → ℚ)
      (now : String),
      st.eye_statistics.max_closure_time ≤
        (eye_hook st data? rand now).1.eye_statistics.max_closure_time := by
    intro st data? rand now
    rcases eye_hook_stats_cases st data? rand now with h |
      ⟨data, ear, stMid, s, _, hmid, halv, hup, hres⟩
    · rw [h]
    · rw [hres]
      have := (us_ok_spec halv hup).2.2.1
      rw [hmid] at this
      exact this
  refine ⟨step, ?_, fun st tnow => rfl⟩
  intro st ps rand now
  induction ps generalizing st with
  | nil => exact le_refl _
  | cons p ps ih =>
    exact le_trans (step st p rand now) (ih _)

/-- C3: for a payload whose status field holds the string `s`, the
simulated metric written to the snapshot lies in [0.10, 0.24] when the
lower-cased `s` is "closed", in [0.25, 0.35] when it is "open", and is
exactly 0 otherwise — for every random source within the bounds of
`random.uniform`. -/
theorem c3_ear_in_declared_range (st : ServerState) (data : Payload)
    (rand : ℚ → ℚ → ℚ) (now : String) (s : String)
    (hrand : ∀ a b : ℚ, a ≤ b → a ≤ rand a b ∧ rand a b ≤ b)
    (hs : data.status = some (.str s)) :
    (strLower s = "closed" →
      10 / 100 ≤ (eye_hook st (some data) rand now).1.latest_eye.ear_value ∧
      (eye_hook st (some data) rand now).1.latest_eye.ear_value ≤ 24 / 100) ∧
    (strLower s = "open" →
      25 / 100 ≤ (eye_hook st (some data) rand now).1.latest_eye.ear_value ∧
      (eye_hook st (some data) rand now).1.latest_eye.ear_value ≤ 35 / 100) ∧
    (strLower s ≠ "closed" → strLower s ≠ "open" →
      (eye_hook st (some data) rand now).1.latest_eye.ear_value = 0) := by
  have he := eye_hook_ear_value st data rand now s hs
  refine ⟨fun hc => ?_, fun ho => ?_, fun hc ho => ?_⟩
  · rw [he, hc]; exact simulate_ear_closed hrand
  · rw [he, ho]; exact simulate_ear_open hrand
  · rw [he]; simp [simulate_ear, hc, ho]

/-- Witness for C3: status "closed" with the lower-bound random source
lands in [0.10, 0.24]. -/
theorem c3_ear_in_declared_range_witness :
    10 / 100 ≤ (eye_hook (initial_state 0 "t0") (some lowerClosedPayload)
        constRand "t").1.latest_eye.ear_value ∧
    (eye_hook (initial_state 0 "t0") (some lowerClosedPayload)
        constRand "t").1.latest_eye.ear_value ≤ 24 / 100 :=
  (c3_ear_in_declared_range (initial_state 0 "t0") lowerClosedPayload constRand
    "t" "closed" (fun a _ h => ⟨le_refl a, h⟩) rfl).1 (by decide)

/-- C4: the alert history never grows past 50 across any request, reset
empties it, every successful ingest turns the history into the old one
plus one entry at the back truncated to the last 50, and concretely,
after 51 ingests from the fresh state the history has length 50, the
entry of the 1st ingest is gone and the entry of the 51st is present. -/
theorem c4_history_capped_at_50 :
    (∀ (st : ServerState) (data? : Option Payload) (rand : ℚ → ℚ → ℚ)
        (now : String),
      st.eye_statistics.alert_history.length ≤ 50 →
      (eye_hook st data? rand now).1.eye_statistics.alert_history.length ≤ 50) ∧
    (∀ (st : ServerState) (tnow : ℚ),
      (reset_statistics st tnow).eye_statistics.alert_history = []) ∧
    (∀ (st : ServerState) (data : Payload) (rand : ℚ → ℚ → ℚ) (now : String),
      (eye_hook st (some data) rand now).2 = .ok →
      ∃ ear : ℚ,
        (eye_hook st (some data) rand now).1.eye_statistics.alert_history =
          lastN 50 (st.eye_statistics.alert_history ++
            [mkHistoryEntry data ear now])) ∧
    after51.eye_statistics.alert_history.length = 50 ∧
    mkHistoryEntry (simplePayload 1) (simulate_ear "open" constRand) "t" ∉
      after51.eye_statistics.alert_history ∧
    mkHistoryEntry (simplePayload 51) (simulate_ear "open" constRand) "t" ∈
      after51.eye_statistics.alert_history := by
  refine ⟨?_, fun st tnow => rfl, ?_, ?_, ?_, ?_⟩
  · intro st data? rand now hlen
    rcases eye_hook_stats_cases st data? rand now with h |
      ⟨data, ear, stMid, s, _, hmid, halv, hup, hres⟩
    · rw [h]; exact hlen
    · rw [hres, (us_ok_spec halv hup).2.2.2]
      exact lastN_length_le _ _
  · intro st data rand now h
    obtain ⟨raw, status, hst, hlow, hsnap, hhist⟩ := eye_hook_ok_spec st data rand now h
    exact ⟨simulate_ear status rand, hhist⟩
  · rw [after51_history]
    simp
  · rw [after51_history]
    intro hmem
    obtain ⟨j, hj, heq⟩ := List.mem_map.mp hmem
    have hd := congrArg HistoryEntry.duration heq
    simp only [mkHistoryEntry, simplePayload, emptyPayload, Option.getD_some]
      at hd
    have hd2 : JVal.num ((j + 2 : ℕ) : ℚ) = JVal.num ((1 : ℕ) : ℚ) := hd
    have hd3 : ((j + 2 : ℕ) : ℚ) = ((1 : ℕ) : ℚ) := by
      injection hd2
    have := Nat.cast_inj.mp hd3
    omega
  · rw [after51_history]
    exact List.mem_map.mpr ⟨49, by simp, rfl⟩

/-- Witness for C4 at a concrete ingest into the fresh state. -/
theorem c4_history_capped_at_50_witness :
    ((eye_hook (initial_state 0 "t0") (some (simplePayload 1)) constRand
        "t").1.eye_statistics.alert_history.length ≤ 50) ∧
    ∃ ear : ℚ,
      (eye_hook (initial_state 0 "t0") (some (simplePayload 1)) constRand
          "t").1.eye_statistics.alert_history =
        lastN 50 ((initial_state 0 "t0").eye_statistics.alert_history ++
          [mkHistoryEntry (simplePayload 1) ear "t"]) :=
  ⟨c4_history_capped_at_50.1 (initial_state 0 "t0") (some (simplePayload 1))
      constRand "t" (by decide),
    c4_history_capped_at_50.2.2.1 (initial_state 0 "t0") (simplePayload 1)
      constRand "t" (by decide)⟩

/-- C6 counterexample: the claim states the snapshot duration is always
a non-negative float; ingesting a payload with numeric duration -5
succeeds and stores -5 in the snapshot, because the code only applies
`float()` with a 0.0 fallback and never clamps the sign. -/
theorem c6_counterexample_negative_duration_stored :
    (eye_hook (initial_state 0 "t0") (some negDurationPayload) constRand
        "t").2 = .ok ∧
    (eye_hook (initial_state 0 "t0") (some negDurationPayload) constRand
        "t").1.latest_eye.duration < 0 := by
  decide

/-- C6 (amended): for every successful ingest, the snapshot duration is
exactly the `float()` coercion of the raw duration with fallback 0.0 —
so it is 0.0 when the field is absent or a non-numeric string, but a
negative numeric payload value is stored as-is. -/
theorem c6_duration_is_float_coercion (st : ServerState) (data : Payload)
    (rand : ℚ → ℚ → ℚ) (now : String)
    (h : (eye_hook st (some data) rand now).2 = .ok) :
    (eye_hook st (some data) rand now).1.latest_eye.duration =
      coerceDuration data.duration ∧
    (data.duration = none →
      (eye_hook st (some data) rand now).1.latest_eye.duration = 0) ∧
    (∀ s : String, data.duration = some (.str s) → parseDec s = none →
      (eye_hook st (some data) rand now).1.latest_eye.duration = 0) := by
  obtain ⟨raw, status, hst, hlow, hsnap, _⟩ := eye_hook_ok_spec st data rand now h
  refine ⟨by rw [hsnap], fun hd => ?_, fun s hd hp => ?_⟩
  · rw [hsnap]; simp [coerceDuration, hd]
  · rw [hsnap]; simp [coerceDuration, hd, pyFloatApp, hp]

/-- Witness for C6 (amended): an unparsable duration string defaults the
stored duration to 0. -/
theorem c6_duration_is_float_coercion_witness :
    (eye_hook (initial_state 0 "t0") (some openBadDurationPayload) constRand
        "t").1.latest_eye.duration = 0 :=
  (c6_duration_is_float_coercion (initial_state 0 "t0") openBadDurationPayload
    constRand "t" (by decide)).2.2 "abc" rfl (by decide)

/-- C7 counterexample: the claim states the status is lower-cased before
use, so "CLOSED" with duration 5 should raise `max_closure_time` to 5;
in the code `update_statistics` compares the RAW status to "closed"
(line 146), so the ingest succeeds but `max_closure_time` stays 0. -/
theorem c7_counterexample_upper_closed_ignored :
    (eye_hook (initial_state 0 "t0") (some upperClosedPayload) constRand
        "t").2 = .ok ∧
    (eye_hook (initial_state 0 "t0") (some upperClosedPayload) constRand
        "t").1.eye_statistics.max_closure_time = 0 := by
  decide

/-- C7 (amended): the lower-cased status drives the snapshot and the EAR
simulation, but the `max_closure_time` update fires only when the
payload's RAW status is exactly the string "closed"; in that case a
numeric duration above the current peak becomes the new peak and the
request succeeds. -/
theorem c7_max_closure_updates_on_raw_closed (st : ServerState) (data : Payload)
    (rand : ℚ → ℚ → ℚ) (now : String) (q : ℚ)
    (hstat : data.status = some (.str "closed"))
    (hdur : data.duration = some (.num q))
    (hgt : st.eye_statistics.max_closure_time < q) :
    (eye_hook st (some data) rand now).2 = .ok ∧
    (eye_hook st (some data) rand now).1.eye_statistics.max_closure_time = q := by
  have hlow : pyLower (.str "closed") = some "closed" := by decide
  obtain ⟨s, hok, hmax⟩ := us_closed_num data (simulate_ear "closed" rand)
    { st with latest_eye :=
      { status := "closed", duration := coerceDuration data.duration,
        alert_level := data.alert_level.getD .null,
        alert_type := data.alert_type.getD .null,
        alert_message := data.alert_message.getD .null,
        sensitivity := data.sensitivity.getD (.num 1),
        ear_value := simulate_ear "closed" rand, timestamp := now } } now q
    hstat hdur hgt
  constructor <;> simp [eye_hook, hstat, hlow, hok, hmax]

/-- Witness for C7 (amended): status "closed" with duration 5 raises the
peak from 0 to 5. -/
theorem c7_max_closure_updates_on_raw_closed_witness :
    (eye_hook (initial_state 0 "t0") (some lowerClosedPayload) constRand
        "t").2 = .ok ∧
    (eye_hook (initial_state 0 "t0") (some lowerClosedPayload) constRand
        "t").1.eye_statistics.max_closure_time = 5 :=
  c7_max_closure_updates_on_raw_closed (initial_state 0 "t0") lowerClosedPayload
    constRand "t" 5 rfl rfl (by decide)

/-- C10: on every successful ingest the appended history entry carries
the RAW payload values — un-lowercased status, raw duration defaulting
to the integer 0, raw alert fields — while its `ear_value` equals the
snapshot's simulated metric; concretely, for status "CLOSED" with the
string duration "5", the entry's status and duration both differ from
the processed snapshot fields and only the metric coincides. -/
theorem c10_history_entry_built_from_raw_payload (st : ServerState)
    (data : Payload) (rand : ℚ → ℚ → ℚ) (now : String)
    (h : (eye_hook st (some data) rand now).2 = .ok) :
    (∃ entry : HistoryEntry,
      ((eye_hook st (some data) rand
          now).1.eye_statistics.alert_history).getLast? = some entry ∧
      entry.status = data.status.getD .null ∧
      entry.duration = data.duration.getD (.num 0) ∧
      entry.alert_level = data.alert_level.getD .null ∧
      entry.alert_type = data.alert_type.getD .null ∧
      entry.ear_value = (eye_hook st (some data) rand
        now).1.latest_eye.ear_value) ∧
    (∃ entry : HistoryEntry,
      ((eye_hook (initial_state 0 "t0") (some rawMixPayload) constRand
          "t").1.eye_statistics.alert_history).getLast? = some entry ∧
      entry.status ≠ .str (eye_hook (initial_state 0 "t0") (some rawMixPayload)
        constRand "t").1.latest_eye.status ∧
      entry.duration ≠ .num (eye_hook (initial_state 0 "t0") (some rawMixPayload)
        constRand "t").1.latest_eye.duration ∧
      entry.ear_value = (eye_hook (initial_state 0 "t0") (some rawMixPayload)
        constRand "t").1.latest_eye.ear_value) := by
  constructor
  · obtain ⟨raw, status, hst, hlow, hsnap, hhist⟩ :=
      eye_hook_ok_spec st data rand now h
    refine ⟨mkHistoryEntry data (simulate_ear status rand) now, ?_, rfl, rfl,
      rfl, rfl, ?_⟩
    · rw [hhist]; exact lastN_concat_getLast? 50 (by norm_num) _ _
    · rw [hsnap]; rfl
  · obtain ⟨raw, status, hst, hlow, hsnap, hhist⟩ :=
      eye_hook_ok_spec (initial_state 0 "t0") rawMixPayload constRand "t"
        (by decide)
    have hraw : raw = .str "CLOSED" := by
      have h1 : some (JVal.str "CLOSED") = some raw := hst
      injection h1 with h1
      exact h1.symm
    subst hraw
    have hstat : status = "closed" := by
      have h2 : some (strLower "CLOSED") = some status := hlow
      injection h2 with h2
      rw [← h2]
      decide
    subst hstat
    refine ⟨mkHistoryEntry rawMixPayload (simulate_ear "closed" constRand) "t",
      ?_, ?_, ?_, ?_⟩
    · rw [hhist]; exact lastN_concat_getLast? 50 (by norm_num) _ _
    · rw [hsnap]; decide
    · rw [hsnap]; decide
    · rw [hsnap]; rfl

/-- Witness for C10 at a concrete successful ingest. -/
theorem c10_history_entry_built_from_raw_payload_witness :
    ∃ entry : HistoryEntry,
      ((eye_hook (initial_state 0 "t0") (some (simplePayload 2)) constRand
          "t2").1.eye_statistics.alert_history).getLast? = some entry ∧
      entry.status = (simplePayload 2).status.getD .null ∧
      entry.duration = (simplePayload 2).duration.getD (.num 0) ∧
      entry.alert_level = (simplePayload 2).alert_level.getD .null ∧
      entry.alert_type = (simplePayload 2).alert_type.getD .null ∧
      entry.ear_value = (eye_hook (initial_state 0 "t0") (some (simplePayload 2))
        constRand "t2").1.latest_eye.ear_value :=
  (c10_history_entry_built_from_raw_payload (initial_state 0 "t0")
    (simplePayload 2) constRand "t2" (by decide)).1

end Claims

end DriverDashboard
